import Mathlib

/-!
Shallow embedding of `src/article_system/data_model/data_init.py` — the
declarative data model (User / Article / Comment / Label), the schema-creation
entry points (`create_indexes`, `create_tables`), the connection-string
construction at module import time, and the three read-only query helpers
(`get_articles_with_pagination`, `search_articles`,
`get_article_with_relations`) together with the session lifecycle of each
helper.

Modelling conventions:
* a database state is the list of persisted rows of each table, in insertion
  order; `DateTime` columns are modelled as integers (timestamps are only ever
  compared, never otherwise inspected);
* Python `int` is `Int`; Python `None`-able arguments are `Option`;
* Python `//` (which raises `ZeroDivisionError` on a zero divisor) is
  `pyFloorDiv`, returning `Except`;
* the SQL predicate generated by `Column.contains(kw)`, i.e.
  `column LIKE '%' || kw || '%'`, is contiguous-substring occurrence;
* `ORDER BY article_created_time DESC` is modelled by a concrete stable sort
  with respect to `fun a b => b.article_created_time ≤ a.article_created_time`
  (SQL leaves the order of ties unspecified; no theorem below depends on how
  ties are broken, because the same sort is used on both sides of every
  comparison);
* `OFFSET o LIMIT n` is `drop o ∘ take n`, embedded for the non-negative
  arguments produced under the documented preconditions `page ≥ 1`,
  `page_size > 0` (storage engines disagree about negative OFFSET/LIMIT
  values, and no theorem below inspects a row list obtained from negative
  ones).
-/

namespace ArticleSystem

/-- Row of the `users` table (`class User`). -/
structure User where
  user_id : Int
  user_name : String
  user_email : String
  user_password : String
  user_gender : String
  user_avatar_url : Option String
  user_created_time : Int
  user_updated_time : Option Int
deriving DecidableEq

/-- Row of the `articles` table (`class Article`). -/
structure Article where
  article_id : Int
  article_title : String
  article_content : String
  article_author_id : Int
  article_created_time : Int
  article_updated_time : Option Int
deriving DecidableEq

/-- Row of the `comments` table (`class Comment`). -/
structure Comment where
  comment_id : Int
  comment_content : String
  comment_author_id : Int
  comment_article_id : Int
  comment_created_time : Int
  comment_updated_time : Option Int
deriving DecidableEq

/-- Row of the `labels` table (`class Label`). -/
structure Label where
  label_id : Int
  label_name : String
  label_article_id : Int
deriving DecidableEq

/-- A database state: the persisted rows of the four tables. -/
structure DB where
  users : List User
  articles : List Article
  comments : List Comment
  labels : List Label
deriving DecidableEq

/-- Python exceptions that the embedded code can raise. -/
inductive PyError where
  | zeroDivisionError
deriving DecidableEq

instance {ε α : Type} [DecidableEq ε] [DecidableEq α] : DecidableEq (Except ε α) :=
  fun x y =>
    match x, y with
    | Except.ok a, Except.ok b =>
        if h : a = b then isTrue (by rw [h]) else isFalse (by simp [h])
    | Except.error e, Except.error f =>
        if h : e = f then isTrue (by rw [h]) else isFalse (by simp [h])
    | Except.ok _, Except.error _ => isFalse (by simp)
    | Except.error _, Except.ok _ => isFalse (by simp)

/-- Python `a // b`: floor division, raising `ZeroDivisionError` when `b = 0`. -/
def pyFloorDiv (a b : Int) : Except PyError Int :=
  if b = 0 then Except.error PyError.zeroDivisionError else Except.ok (Int.fdiv a b)

/-- The SQL predicate generated by `Column.contains(kw)`:
`column LIKE '%' || kw || '%'`, i.e. `kw` occurs in the column value as a
contiguous substring. -/
def likeContains (field keyword : String) : Bool :=
  decide (keyword.toList <:+: field.toList)

/-- The comparison realising `Article.article_created_time.desc()`. -/
def createdDescOrder (a b : Article) : Prop :=
  b.article_created_time ≤ a.article_created_time

instance : DecidableRel createdDescOrder :=
  fun a b => inferInstanceAs (Decidable (b.article_created_time ≤ a.article_created_time))

/-- `query.order_by(Article.article_created_time.desc())`: the result rows
sorted by creation time, newest first. -/
def orderByCreatedTimeDesc (l : List Article) : List Article :=
  List.insertionSort createdDescOrder l

/-- `query.offset(o).limit(n)` applied to an ordered result list. -/
def offsetLimit (l : List Article) (o n : Int) : List Article :=
  (l.drop o.toNat).take n.toNat

/-- `if author_id: query = query.filter(Article.article_author_id == author_id)`.
Python truthiness: the filter is applied only when `author_id` is a nonzero
integer; both `None` and `0` leave the query unfiltered. -/
def applyAuthorFilter (author_id : Option Int) (l : List Article) : List Article :=
  match author_id with
  | some aid => if aid ≠ 0 then l.filter (fun a => a.article_author_id == aid) else l
  | none => l

/-- The full ordered query built by `get_articles_with_pagination`:
author filter (if any), then `ORDER BY created_time DESC`. -/
def articlesQuery (db : DB) (author_id : Option Int) : List Article :=
  orderByCreatedTimeDesc (applyAuthorFilter author_id db.articles)

/-- The row predicate of `search_articles`:
`Article.article_title.contains(keyword) | Article.article_content.contains(keyword)`. -/
def searchMatch (keyword : String) (a : Article) : Bool :=
  likeContains a.article_title keyword || likeContains a.article_content keyword

/-- The full ordered query built by `search_articles`: keyword filter, then
`ORDER BY created_time DESC`. (In the source the `COUNT` is taken before the
`ORDER BY`; a `COUNT` is unaffected by ordering, so both functions share this
shape.) -/
def searchQuery (db : DB) (keyword : String) : List Article :=
  orderByCreatedTimeDesc (db.articles.filter (searchMatch keyword))

/-- The dictionary returned by both paginated helpers. -/
structure PaginationResult where
  articles : List Article
  total : Int
  page : Int
  page_size : Int
  total_pages : Int
deriving DecidableEq

/-- `get_articles_with_pagination(page, page_size, author_id)`. -/
def get_articles_with_pagination (db : DB) (page page_size : Int)
    (author_id : Option Int) : Except PyError PaginationResult :=
  let query := articlesQuery db author_id
  let total : Int := query.length
  let articles := offsetLimit query ((page - 1) * page_size) page_size
  match pyFloorDiv (total + page_size - 1) page_size with
  | Except.error e => Except.error e
  | Except.ok tp =>
      Except.ok { articles := articles, total := total, page := page,
                  page_size := page_size, total_pages := tp }

/-- `search_articles(keyword, page, page_size)`. -/
def search_articles (db : DB) (keyword : String) (page page_size : Int) :
    Except PyError PaginationResult :=
  let query := searchQuery db keyword
  let total : Int := query.length
  let articles := offsetLimit query ((page - 1) * page_size) page_size
  match pyFloorDiv (total + page_size - 1) page_size with
  | Except.error e => Except.error e
  | Except.ok tp =>
      Except.ok { articles := articles, total := total, page := page,
                  page_size := page_size, total_pages := tp }

/-- The composite structure returned by `get_article_with_relations` when the
article exists. -/
structure ArticleWithRelations where
  article : Article
  comments : List Comment
  labels : List Label
deriving DecidableEq

/-- `get_article_with_relations(article_id)`: the first article row with the
given id (`.first()`), or `None`; when found, all comments and labels whose
article-id column equals the argument. -/
def get_article_with_relations (db : DB) (article_id : Int) :
    Option ArticleWithRelations :=
  match db.articles.find? (fun a => a.article_id == article_id) with
  | some article =>
      some { article := article,
             comments := db.comments.filter (fun c => c.comment_article_id == article_id),
             labels := db.labels.filter (fun l => l.label_article_id == article_id) }
  | none => none

/-! Schema creation (`create_indexes`, `create_tables`).

`create_indexes` only constructs `sqlalchemy.Index(name, column)` objects.
Per SQLAlchemy's documented semantics, constructing an `Index` from a mapped
column ATTACHES the index declaration to that column's table inside the
process-wide `MetaData` collection; it emits no DDL by itself.
`Base.metadata.create_all(engine)` (default `checkfirst=True`) inspects the
database, emits `CREATE TABLE` for each registered table that is absent —
together with `CREATE INDEX` for the index declarations attached to that
table at that moment — and skips tables (and hence their indexes) that
already exist.  The state machine below embeds exactly this. -/

/-- The four tables registered on `Base` at import time. -/
inductive TableName where
  | users | articles | comments | labels
deriving DecidableEq

/-- An index declaration: its name and the table it is attached to. -/
structure IndexDecl where
  idx_name : String
  idx_table : TableName
deriving DecidableEq

/-- The process-wide `Base.metadata`: registered tables and attached index
declarations. -/
structure SchemaMetaData where
  tables : List TableName
  indexes : List IndexDecl
deriving DecidableEq

/-- The schema objects present in the database itself. -/
structure DatabaseState where
  dbTables : List TableName
  dbIndexes : List IndexDecl
deriving DecidableEq

/-- `Base.metadata` as it stands right after `import`: the four declarative
classes have registered their tables; no `Index(...)` call has run yet. -/
def initialMetaData : SchemaMetaData :=
  { tables := [TableName.users, TableName.articles, TableName.comments, TableName.labels],
    indexes := [] }

/-- A database in which nothing has been provisioned yet. -/
def freshDatabase : DatabaseState :=
  { dbTables := [], dbIndexes := [] }

/-- The ten `Index(...)` declarations made inside `create_indexes`. -/
def declaredIndexes : List IndexDecl :=
  [ { idx_name := "idx_article_author", idx_table := TableName.articles },
    { idx_name := "idx_article_created_time", idx_table := TableName.articles },
    { idx_name := "idx_article_title", idx_table := TableName.articles },
    { idx_name := "idx_comment_article", idx_table := TableName.comments },
    { idx_name := "idx_comment_author", idx_table := TableName.comments },
    { idx_name := "idx_comment_created_time", idx_table := TableName.comments },
    { idx_name := "idx_label_article", idx_table := TableName.labels },
    { idx_name := "idx_label_name", idx_table := TableName.labels },
    { idx_name := "idx_user_email", idx_table := TableName.users },
    { idx_name := "idx_user_created_time", idx_table := TableName.users } ]

/-- `create_indexes()`: constructs the ten `Index` objects, i.e. attaches their
declarations to the metadata.  No DDL is emitted and the database state is
untouched. -/
def create_indexes (md : SchemaMetaData) : SchemaMetaData :=
  { md with indexes := md.indexes ++ declaredIndexes }

/-- `Base.metadata.create_all(engine)` with the default `checkfirst=True`:
creates every registered table that is absent, together with the index
declarations attached to it at call time; existing tables — and therefore
their indexes — are skipped. -/
def metadata_create_all (md : SchemaMetaData) (st : DatabaseState) : DatabaseState :=
  { dbTables := st.dbTables ++ md.tables.filter (fun t => !(st.dbTables.contains t)),
    dbIndexes := st.dbIndexes ++
      md.indexes.filter (fun i => !(st.dbTables.contains i.idx_table)) }

/-- `create_tables()`: `Base.metadata.create_all(engine)` FIRST, then
`create_indexes()`.  Returns the new metadata and database states. -/
def create_tables (md : SchemaMetaData) (st : DatabaseState) :
    SchemaMetaData × DatabaseState :=
  let st2 := metadata_create_all md st
  let md2 := create_indexes md
  (md2, st2)

/-! Session lifecycle.

Each query helper runs `db = SessionLocal()`, a `try:` block holding the
query work, and `finally: db.close()`; `get_db` likewise yields the session
inside `try:` and closes it in `finally:`.  The embedding records the
acquire/close events of one call and lets an oracle decide whether the query
work inside the `try:` block raises, so that every execution path — normal
return and storage-layer exception alike — is covered. -/

/-- Observable session-lifecycle events of one helper call. -/
inductive SessionEvent where
  | acquire | close
deriving DecidableEq

/-- Python `try: body finally: fin`: the finalizer's events run after the
body's events whether the body returned or raised; the body's value or
exception propagates unchanged. -/
def tryFinallyTrace {α : Type} (body : Except PyError α × List SessionEvent)
    (finalizer : List SessionEvent) : Except PyError α × List SessionEvent :=
  (body.1, body.2 ++ finalizer)

/-- The shared shape of every helper: `db = SessionLocal()` (acquire), then
`try:` the query work `finally: db.close()`. -/
def sessionScoped {α : Type} (work : Except PyError α) :
    Except PyError α × List SessionEvent :=
  tryFinallyTrace (work, [SessionEvent.acquire]) [SessionEvent.close]

/-- The query work inside the `try:` block: either the storage layer raises
(oracle says so), or the pure result is produced. -/
def queryOutcome {α : Type} (oracle : Option PyError) (result : Except PyError α) :
    Except PyError α :=
  match oracle with
  | some e => Except.error e
  | none => result

/-- `get_articles_with_pagination` with its session lifecycle made observable. -/
def get_articles_with_pagination_traced (db : DB) (page page_size : Int)
    (author_id : Option Int) (oracle : Option PyError) :
    Except PyError PaginationResult × List SessionEvent :=
  sessionScoped (queryOutcome oracle (get_articles_with_pagination db page page_size author_id))

/-- `search_articles` with its session lifecycle made observable. -/
def search_articles_traced (db : DB) (keyword : String) (page page_size : Int)
    (oracle : Option PyError) :
    Except PyError PaginationResult × List SessionEvent :=
  sessionScoped (queryOutcome oracle (search_articles db keyword page page_size))

/-- `get_article_with_relations` with its session lifecycle made observable. -/
def get_article_with_relations_traced (db : DB) (article_id : Int)
    (oracle : Option PyError) :
    Except PyError (Option ArticleWithRelations) × List SessionEvent :=
  sessionScoped (queryOutcome oracle (Except.ok (get_article_with_relations db article_id)))

/-- `get_db`: the generator used as a scoped dependency — the consumer runs
with the yielded session, and `finally: db.close()` runs when the consumer is
done, whether it returned or raised. -/
def get_db_traced (consumer : Except PyError Unit) :
    Except PyError Unit × List SessionEvent :=
  sessionScoped consumer

/-! Connection-string construction (module top level).

`database_url` is built once at import time from the environment variables
`DATA_TYPE`, `DATA_USER`, `DATA_PASSWORD`, `DATA_TABLE`, `DATA_ADDRESS`,
`DATA_PORT`; the embedding makes those inputs explicit parameters
(`os.getenv` returns `None` for an unset variable, hence `Option String` for
the port, which is the only variable read without a default). -/

/-- ASCII lowercasing of one character; Python `str.lower()` restricted to the
ASCII configuration strings this module handles. -/
def asciiToLower (c : Char) : Char :=
  if 65 ≤ c.toNat && c.toNat ≤ 90 then Char.ofNat (c.toNat + 32) else c

/-- Python `s.lower()` (ASCII). -/
def pyLower (s : String) : String :=
  String.mk (s.data.map asciiToLower)

/-- The whitespace characters Python strips around the argument of `int()`. -/
def isPySpace (c : Char) : Bool :=
  c = ' ' || c = '\t' || c = '\n' || c = '\r' || c = '\x0b' || c = '\x0c'

/-- Python `s.strip()`: surrounding whitespace removed. -/
def pyStrip (s : String) : List Char :=
  ((s.data.dropWhile isPySpace).reverse.dropWhile isPySpace).reverse

/-- Python `int(s)` on a string: surrounding whitespace stripped, an optional
sign, then a nonempty run of decimal digits in which single underscores may
stand between digits; anything else raises `ValueError` (here: `none`). -/
def pyDigitsTail : List Char → Bool
  | [] => true
  | '_' :: c :: rest => c.isDigit && pyDigitsTail rest
  | c :: rest => c.isDigit && pyDigitsTail rest

/-- A valid Python decimal-digit run (underscores only between digits). -/
def pyDigitsOk : List Char → Bool
  | [] => false
  | c :: rest => c.isDigit && pyDigitsTail rest

/-- Numeric value of a digit run, underscores skipped. -/
def pyDigitsValue (ds : List Char) : Int :=
  (ds.filter (fun c => c ≠ '_')).foldl
    (fun acc d => acc * 10 + ((d.toNat : Int) - 48)) 0

/-- Python `int(s)` for a decimal string: `some` value or `none` for
`ValueError`. -/
def pyIntOfString (s : String) : Option Int :=
  match pyStrip s with
  | [] => none
  | c :: rest =>
      if c = '-' then
        if pyDigitsOk rest then some (-(pyDigitsValue rest)) else none
      else if c = '+' then
        if pyDigitsOk rest then some (pyDigitsValue rest) else none
      else
        if pyDigitsOk (c :: rest) then some (pyDigitsValue (c :: rest)) else none

/-- The port-parsing block:
`if data_port_str and data_port_str.lower() != 'none': try: int(...) except ValueError: None else: None`. -/
def parse_data_port (data_port_str : Option String) : Option Int :=
  match data_port_str with
  | none => none
  | some s =>
      if s ≠ "" && pyLower s ≠ "none" then pyIntOfString s
      else none

/-- Python truthiness of an `Optional[int]`: `None` and `0` are falsy. -/
def pyTruthyOptInt : Option Int → Bool
  | none => false
  | some n => n != 0

/-- The module-level `database_url` construction: SQLite gets a local
single-file database named after the schema; MySQL gets the `mysql+pymysql`
driver prefix; any other kind is used verbatim as the URL scheme; the port
segment appears only when `data_port` is truthy (a nonzero parsed integer). -/
def database_url (data_type data_user data_password data_table data_address : String)
    (data_port_str : Option String) : String :=
  let data_port := parse_data_port data_port_str
  if pyLower data_type = "sqlite" then
    "sqlite:///" ++ data_table ++ ".db"
  else if pyLower data_type = "mysql" then
    if pyTruthyOptInt data_port then
      "mysql+pymysql://" ++ data_user ++ ":" ++ data_password ++ "@" ++ data_address
        ++ ":" ++ toString (data_port.getD 0) ++ "/" ++ data_table
    else
      "mysql+pymysql://" ++ data_user ++ ":" ++ data_password ++ "@" ++ data_address
        ++ "/" ++ data_table
  else
    if pyTruthyOptInt data_port then
      data_type ++ "://" ++ data_user ++ ":" ++ data_password ++ "@" ++ data_address
        ++ ":" ++ toString (data_port.getD 0) ++ "/" ++ data_table
    else
      data_type ++ "://" ++ data_user ++ ":" ++ data_password ++ "@" ++ data_address
        ++ "/" ++ data_table

/-! Concrete fixtures used for counterexamples and witnesses. -/

/-- A concrete article: id 1, title "t", content "c", author 1. -/
def articleA : Article :=
  { article_id := 1, article_title := "t", article_content := "c",
    article_author_id := 1, article_created_time := 0, article_updated_time := some 0 }

/-- A database holding exactly one article and nothing else. -/
def dbOne : DB :=
  { users := [], articles := [articleA], comments := [], labels := [] }

/-- The result `get_articles_with_pagination dbOne 1 20 none` evaluates to. -/
def resultA : PaginationResult :=
  { articles := [articleA], total := 1, page := 1, page_size := 20, total_pages := 1 }

/-! Helper lemmas about the embedded helpers. -/

/-- With a nonzero page size, `get_articles_with_pagination` returns its result
record built from the ordered filtered query. -/
lemma get_articles_eq_ok (db : DB) (page ps : Int) (aid : Option Int) (hps : ps ≠ 0) :
    get_articles_with_pagination db page ps aid =
      Except.ok { articles := offsetLimit (articlesQuery db aid) ((page - 1) * ps) ps,
                  total := ((articlesQuery db aid).length : ℤ),
                  page := page, page_size := ps,
                  total_pages := Int.fdiv (((articlesQuery db aid).length : ℤ) + ps - 1) ps } := by
  simp [get_articles_with_pagination, pyFloorDiv, hps]

/-- With a nonzero page size, `search_articles` returns its result record built
from the ordered keyword query. -/
lemma search_articles_eq_ok (db : DB) (k : String) (page ps : Int) (hps : ps ≠ 0) :
    search_articles db k page ps =
      Except.ok { articles := offsetLimit (searchQuery db k) ((page - 1) * ps) ps,
                  total := ((searchQuery db k).length : ℤ),
                  page := page, page_size := ps,
                  total_pages := Int.fdiv (((searchQuery db k).length : ℤ) + ps - 1) ps } := by
  simp [search_articles, pyFloorDiv, hps]

/-- With page size 0, `get_articles_with_pagination` raises `ZeroDivisionError`. -/
lemma get_articles_zero_ps (db : DB) (page : Int) (aid : Option Int) :
    get_articles_with_pagination db page 0 aid = Except.error PyError.zeroDivisionError := by
  simp [get_articles_with_pagination, pyFloorDiv]

/-- With page size 0, `search_articles` raises `ZeroDivisionError`. -/
lemma search_articles_zero_ps (db : DB) (k : String) (page : Int) :
    search_articles db k page 0 = Except.error PyError.zeroDivisionError := by
  simp [search_articles, pyFloorDiv]

/-- Python's `(n + m - 1) // m` on naturals is ceiling division. -/
lemma fdiv_add_pred_eq_ceilDiv (n m : ℕ) (hm : 0 < m) :
    Int.fdiv ((n : ℤ) + (m : ℤ) - 1) (m : ℤ) = ((n ⌈/⌉ m : ℕ) : ℤ) := by
  rw [Nat.ceilDiv_eq_add_pred_div, Int.ofNat_fdiv]
  congr 1
  omega

/-- Python's `(n + ps - 1) // ps` for a positive integer page size is ceiling
division of the (natural) total by the page size. -/
lemma fdiv_total_pages_eq_ceilDiv (n : ℕ) (ps : ℤ) (hps : 0 < ps) :
    Int.fdiv ((n : ℤ) + ps - 1) ps = ((n ⌈/⌉ ps.toNat : ℕ) : ℤ) := by
  obtain ⟨m, rfl⟩ : ∃ m : ℕ, ps = (m : ℤ) := ⟨ps.toNat, (Int.toNat_of_nonneg hps.le).symm⟩
  rw [Int.toNat_natCast]
  exact fdiv_add_pred_eq_ceilDiv n m (by exact_mod_cast hps)

/-- `(0 + ps - 1) // ps = 0` for positive `ps`: an empty match set has zero pages. -/
lemma fdiv_zero_total (ps : ℤ) (hps : 0 < ps) : Int.fdiv (ps - 1) ps = 0 := by
  rw [Int.fdiv_eq_ediv _ hps.le]
  exact Int.ediv_eq_zero_of_lt (by omega) (by omega)

/-- Every article of a returned page comes from the underlying ordered query. -/
lemma offsetLimit_subset (l : List Article) (o n : Int) : offsetLimit l o n ⊆ l :=
  fun _ ha => List.drop_subset _ _ (List.take_subset _ _ ha)

/-- Membership in the ordered query is membership in the unordered one. -/
lemma mem_orderByCreatedTimeDesc (l : List Article) (a : Article) :
    a ∈ orderByCreatedTimeDesc l ↔ a ∈ l :=
  (List.perm_insertionSort createdDescOrder l).mem_iff

/-- Ordering does not change the row count. -/
lemma length_orderByCreatedTimeDesc (l : List Article) :
    (orderByCreatedTimeDesc l).length = l.length :=
  List.length_insertionSort createdDescOrder l

/-- Concatenating the first `k` page slices of size `m` reconstructs the first
`k * m` elements of the ordered result list. -/
lemma flatten_range_chunks {α : Type} (l : List α) (m k : ℕ) :
    ((List.range k).map (fun i => (l.drop (i * m)).take m)).flatten = l.take (k * m) := by
  induction k with
  | zero => simp
  | succ k ih =>
      rw [List.range_succ, List.map_append, List.flatten_append, ih, Nat.add_mul,
        Nat.one_mul, List.take_add]
      simp

/-- The row count is at most (number of pages) × (page size). -/
lemma length_le_pages_mul (len m : ℕ) (hm : 0 < m) : len ≤ ((len + m - 1) / m) * m := by
  by_contra hlt
  push_neg at hlt
  generalize hq : (len + m - 1) / m = q at hlt
  have h1 : (q + 1) * m ≤ len + m - 1 := by
    rw [Nat.add_mul, Nat.one_mul]
    omega
  have h2 := (Nat.le_div_iff_mul_le hm).mpr h1
  omega

/-- Concatenating all `⌈len / m⌉` page slices of size `m` reconstructs the
whole ordered result list. -/
lemma flatten_all_chunks {α : Type} (l : List α) (m : ℕ) (hm : 0 < m) :
    ((List.range ((l.length + m - 1) / m)).map
        (fun i => (l.drop (i * m)).take m)).flatten = l := by
  rw [flatten_range_chunks]
  exact List.take_of_length_le (length_le_pages_mul l.length m hm)

/-! Claim theorems. -/

/-- Claim C1: for every page ≥ 1 and page_size > 0, the results of
`get_articles_with_pagination` and of `search_articles` satisfy
`total_pages = ⌈total / page_size⌉`, and the returned article list holds at
most `page_size` items. -/
theorem c1_total_pages_is_ceiling (db : DB) (page page_size : ℤ)
    (author_id : Option ℤ) (keyword : String)
    (hpage : 1 ≤ page) (hps : 0 < page_size) :
    (∀ r, get_articles_with_pagination db page page_size author_id = Except.ok r →
        r.total_pages = ((r.total.toNat ⌈/⌉ page_size.toNat : ℕ) : ℤ) ∧
        (r.articles.length : ℤ) ≤ page_size) ∧
    (∀ r, search_articles db keyword page page_size = Except.ok r →
        r.total_pages = ((r.total.toNat ⌈/⌉ page_size.toNat : ℕ) : ℤ) ∧
        (r.articles.length : ℤ) ≤ page_size) := by
  have hps' : page_size ≠ 0 := by omega
  constructor
  · intro r hr
    rw [get_articles_eq_ok db page page_size author_id hps'] at hr
    injection hr with hr
    subst hr
    refine ⟨?_, ?_⟩
    · show Int.fdiv _ _ = _
      rw [Int.toNat_natCast]
      exact fdiv_total_pages_eq_ceilDiv _ page_size hps
    · have h := List.length_take_le page_size.toNat
        ((articlesQuery db author_id).drop ((page - 1) * page_size).toNat)
      show ((((articlesQuery db author_id).drop _).take _).length : ℤ) ≤ page_size
      omega
  · intro r hr
    rw [search_articles_eq_ok db keyword page page_size hps'] at hr
    injection hr with hr
    subst hr
    refine ⟨?_, ?_⟩
    · show Int.fdiv _ _ = _
      rw [Int.toNat_natCast]
      exact fdiv_total_pages_eq_ceilDiv _ page_size hps
    · have h := List.length_take_le page_size.toNat
        ((searchQuery db keyword).drop ((page - 1) * page_size).toNat)
      show ((((searchQuery db keyword).drop _).take _).length : ℤ) ≤ page_size
      omega

/-- Witness for C1 at the concrete one-article database, page 1, page size 20. -/
theorem c1_total_pages_is_ceiling_witness :
    (1 : ℤ) ≤ 1 ∧ (0 : ℤ) < 20 ∧
    (resultA.total_pages = ((resultA.total.toNat ⌈/⌉ (20 : ℤ).toNat : ℕ) : ℤ) ∧
     (resultA.articles.length : ℤ) ≤ 20) :=
  ⟨by decide, by decide,
    (c1_total_pages_is_ceiling dbOne 1 20 none "t" (by decide) (by decide)).1
      resultA (by decide)⟩

/-- Claim C2 counterexample: on a database holding one article, searching with
the empty-string keyword returns that article with total 1 — not an empty
result with total 0 — because `LIKE '%%'` matches every row. -/
theorem c2_empty_keyword_counterexample :
    search_articles dbOne "" 1 20 = Except.ok resultA ∧
    search_articles dbOne "" 1 20 ≠
      Except.ok { articles := [], total := 0, page := 1, page_size := 20, total_pages := 0 } := by
  constructor
  · decide
  · decide

/-- Claim C2 (amended): a keyword that occurs as a substring in no article's
title and no article's content yields an empty article list with total 0 and
total_pages 0 (for any page and positive page size); the empty-string keyword,
however, matches every article, so its total is the whole table's row count. -/
theorem c2_unmatched_keyword_yields_empty (db : DB) (k : String) (page ps : ℤ)
    (hps : 0 < ps)
    (hk : ∀ a ∈ db.articles, likeContains a.article_title k = false ∧
            likeContains a.article_content k = false) :
    search_articles db k page ps =
      Except.ok { articles := [], total := 0, page := page, page_size := ps,
                  total_pages := 0 } ∧
    (∀ r, search_articles db "" page ps = Except.ok r →
        r.total = (db.articles.length : ℤ)) := by
  have hps' : ps ≠ 0 := by omega
  constructor
  · have hfil : db.articles.filter (searchMatch k) = [] := by
      rw [List.filter_eq_nil_iff]
      intro a ha
      simp [searchMatch, (hk a ha).1, (hk a ha).2]
    have hq : searchQuery db k = [] := by
      rw [searchQuery, hfil]
      rfl
    rw [search_articles_eq_ok db k page ps hps', hq]
    simp [offsetLimit, fdiv_zero_total ps hps]
  · intro r hr
    rw [search_articles_eq_ok db "" page ps hps'] at hr
    injection hr with hr
    subst hr
    show ((searchQuery db "").length : ℤ) = _
    have hfil : db.articles.filter (searchMatch "") = db.articles := by
      rw [List.filter_eq_self]
      intro a _
      simp [searchMatch, likeContains]
    rw [searchQuery, hfil, length_orderByCreatedTimeDesc]

/-- Witness for C2 (amended) at a concrete database and keyword. -/
theorem c2_unmatched_keyword_yields_empty_witness :
    (0 : ℤ) < 20 ∧
    (∀ a ∈ dbOne.articles, likeContains a.article_title "zz" = false ∧
        likeContains a.article_content "zz" = false) ∧
    (search_articles dbOne "zz" 1 20 =
      Except.ok { articles := [], total := 0, page := 1, page_size := 20,
                  total_pages := 0 } ∧
     (∀ r, search_articles dbOne "" 1 20 = Except.ok r →
        r.total = (dbOne.articles.length : ℤ))) :=
  ⟨by decide, by decide,
    c2_unmatched_keyword_yields_empty dbOne "zz" 1 20 (by decide) (by decide)⟩

/-- Claim C10 counterexample: with page_size 0 both helpers raise
`ZeroDivisionError` instead of returning a result that echoes the inputs. -/
theorem c10_zero_page_size_raises :
    get_articles_with_pagination dbOne 1 0 none = Except.error PyError.zeroDivisionError ∧
    search_articles dbOne "t" 1 0 = Except.error PyError.zeroDivisionError := by
  constructor
  · decide
  · decide

/-- Claim C10 (amended): for every page and every nonzero page_size — including
values violating the documented preconditions, such as page < 1 or negative
page_size — both helpers echo page and page_size back verbatim in the result
fields, with no clamping or validation; page_size = 0 instead raises
`ZeroDivisionError`, so no result is returned at all. -/
theorem c10_page_fields_echoed (db : DB) (page ps : ℤ) (aid : Option ℤ) (k : String) :
    (ps ≠ 0 →
      (get_articles_with_pagination db page ps aid).map (fun r => (r.page, r.page_size)) =
        Except.ok (page, ps) ∧
      (search_articles db k page ps).map (fun r => (r.page, r.page_size)) =
        Except.ok (page, ps)) ∧
    (ps = 0 →
      get_articles_with_pagination db page ps aid = Except.error PyError.zeroDivisionError ∧
      search_articles db k page ps = Except.error PyError.zeroDivisionError) := by
  constructor
  · intro h
    rw [get_articles_eq_ok db page ps aid h, search_articles_eq_ok db k page ps h]
    exact ⟨rfl, rfl⟩
  · intro h
    subst h
    exact ⟨get_articles_zero_ps db page aid, search_articles_zero_ps db k page⟩

/-- Witness for C10 (amended) at precondition-violating inputs: page -3 and
page size -2 are echoed back verbatim. -/
theorem c10_page_fields_echoed_witness :
    ((-2 : ℤ) ≠ 0) ∧
    ((get_articles_with_pagination dbOne (-3) (-2) none).map (fun r => (r.page, r.page_size)) =
        Except.ok ((-3 : ℤ), (-2 : ℤ)) ∧
     (search_articles dbOne "t" (-3) (-2)).map (fun r => (r.page, r.page_size)) =
        Except.ok ((-3 : ℤ), (-2 : ℤ))) :=
  ⟨by decide, (c10_page_fields_echoed dbOne (-3) (-2) none "t").1 (by decide)⟩

/-- Claim C3 counterexample: passing the author-id value 0 as the filter leaves
the query unfiltered (Python truthiness of `if author_id:`): the one article of
`dbOne` has author id 1 ≠ 0, yet it is returned and counted. -/
theorem c3_author_zero_counterexample :
    get_articles_with_pagination dbOne 1 20 (some 0) = Except.ok resultA ∧
    articleA.article_author_id ≠ 0 := by
  constructor
  · decide
  · decide

/-- Claim C3 (amended): for every NONZERO author id passed as the filter, every
article returned by `get_articles_with_pagination` has that author id, and the
reported total counts exactly the articles with that author id; when no filter
is passed (None) — and likewise for the falsy value 0 — no author restriction
applies and the total counts the whole table. -/
theorem c3_author_filter_restricts (db : DB) (page ps : ℤ) (aid : ℤ) (haid : aid ≠ 0) :
    (∀ r, get_articles_with_pagination db page ps (some aid) = Except.ok r →
        (∀ a ∈ r.articles, a.article_author_id = aid) ∧
        r.total = ((db.articles.filter (fun a => a.article_author_id == aid)).length : ℤ)) ∧
    (∀ r, get_articles_with_pagination db page ps none = Except.ok r →
        r.total = (db.articles.length : ℤ)) ∧
    (∀ r, get_articles_with_pagination db page ps (some 0) = Except.ok r →
        r.total = (db.articles.length : ℤ)) := by
  have hquery : articlesQuery db (some aid) =
      orderByCreatedTimeDesc (db.articles.filter (fun a => a.article_author_id == aid)) := by
    rw [articlesQuery, applyAuthorFilter, if_pos haid]
  refine ⟨?_, ?_, ?_⟩
  · intro r hr
    rcases eq_or_ne ps 0 with h | h
    · subst h; rw [get_articles_zero_ps] at hr; cases hr
    rw [get_articles_eq_ok db page ps (some aid) h] at hr
    injection hr with hr
    subst hr
    constructor
    · intro a ha
      have h1 : a ∈ articlesQuery db (some aid) := offsetLimit_subset _ _ _ ha
      rw [hquery, mem_orderByCreatedTimeDesc] at h1
      have h2 := (List.mem_filter.mp h1).2
      simpa using h2
    · show ((articlesQuery db (some aid)).length : ℤ) = _
      rw [hquery, length_orderByCreatedTimeDesc]
  · intro r hr
    rcases eq_or_ne ps 0 with h | h
    · subst h; rw [get_articles_zero_ps] at hr; cases hr
    rw [get_articles_eq_ok db page ps none h] at hr
    injection hr with hr
    subst hr
    show ((articlesQuery db none).length : ℤ) = _
    rw [articlesQuery, applyAuthorFilter, length_orderByCreatedTimeDesc]
  · intro r hr
    rcases eq_or_ne ps 0 with h | h
    · subst h; rw [get_articles_zero_ps] at hr; cases hr
    rw [get_articles_eq_ok db page ps (some 0) h] at hr
    injection hr with hr
    subst hr
    show ((articlesQuery db (some 0)).length : ℤ) = _
    rw [articlesQuery, applyAuthorFilter, if_neg (by simp), length_orderByCreatedTimeDesc]

/-- Witness for C3 (amended): filtering `dbOne` by the nonzero author id 1. -/
theorem c3_author_filter_restricts_witness :
    ((1 : ℤ) ≠ 0) ∧
    ((∀ a ∈ resultA.articles, a.article_author_id = 1) ∧
     resultA.total = ((dbOne.articles.filter (fun a => a.article_author_id == 1)).length : ℤ)) :=
  ⟨by decide,
    (c3_author_filter_restricts dbOne 1 20 1 (by decide)).1 resultA (by decide)⟩

/-- Claim C5: fetching relations for an article id with no matching article
yields the absent result; for an existing id the result is present and carries
exactly the comments and labels referencing that article id — as empty lists,
not as an absent result, when there are none. -/
theorem c5_relations_fetch (db : DB) (aid : ℤ) :
    ((∀ a ∈ db.articles, a.article_id ≠ aid) → get_article_with_relations db aid = none) ∧
    ((∃ a ∈ db.articles, a.article_id = aid) →
        (get_article_with_relations db aid).isSome) ∧
    (∀ r, get_article_with_relations db aid = some r →
        r.article ∈ db.articles ∧ r.article.article_id = aid ∧
        r.comments = db.comments.filter (fun c => c.comment_article_id == aid) ∧
        r.labels = db.labels.filter (fun l => l.label_article_id == aid) ∧
        ((∀ c ∈ db.comments, c.comment_article_id ≠ aid) → r.comments = []) ∧
        ((∀ l ∈ db.labels, l.label_article_id ≠ aid) → r.labels = [])) := by
  refine ⟨?_, ?_, ?_⟩
  · intro h
    have hfind : db.articles.find? (fun a => a.article_id == aid) = none := by
      rw [List.find?_eq_none]
      intro x hx
      simpa using h x hx
    rw [get_article_with_relations, hfind]
  · intro h
    obtain ⟨a, ha, haid⟩ := h
    have hfind : (db.articles.find? (fun a => a.article_id == aid)).isSome := by
      rw [List.find?_isSome]
      exact ⟨a, ha, by simpa using haid⟩
    obtain ⟨b, hb⟩ := Option.isSome_iff_exists.mp hfind
    rw [get_article_with_relations, hb]
    rfl
  · intro r hr
    rcases hfind : db.articles.find? (fun a => a.article_id == aid) with _ | a
    · rw [get_article_with_relations, hfind] at hr
      cases hr
    rw [get_article_with_relations, hfind] at hr
    injection hr with hr
    subst hr
    refine ⟨List.mem_of_find?_eq_some hfind, by simpa using List.find?_some hfind,
      rfl, rfl, ?_, ?_⟩
    · intro h
      show db.comments.filter _ = []
      rw [List.filter_eq_nil_iff]
      intro c hc
      simpa using h c hc
    · intro h
      show db.labels.filter _ = []
      rw [List.filter_eq_nil_iff]
      intro l hl
      simpa using h l hl

/-- Witness for C5: id 2 is absent from `dbOne` (absent result), id 1 is present
(present result). -/
theorem c5_relations_fetch_witness :
    get_article_with_relations dbOne 2 = none ∧
    (get_article_with_relations dbOne 1).isSome :=
  ⟨(c5_relations_fetch dbOne 2).1 (by decide),
   (c5_relations_fetch dbOne 1).2.1 (by decide)⟩

/-- Claim C8: each query helper — and the `get_db` dependency — acquires exactly
one fresh session at the start of the call and closes it before the call
returns, both on the normal path and on the path where the query work raises a
storage-layer exception. -/
theorem c8_sessions_always_closed (db : DB) (page ps : ℤ) (aid : Option ℤ)
    (k : String) (i : ℤ) (oracle : Option PyError) (consumer : Except PyError Unit) :
    (get_articles_with_pagination_traced db page ps aid oracle).2 =
      [SessionEvent.acquire, SessionEvent.close] ∧
    (search_articles_traced db k page ps oracle).2 =
      [SessionEvent.acquire, SessionEvent.close] ∧
    (get_article_with_relations_traced db i oracle).2 =
      [SessionEvent.acquire, SessionEvent.close] ∧
    (get_db_traced consumer).2 = [SessionEvent.acquire, SessionEvent.close] :=
  ⟨rfl, rfl, rfl, rfl⟩

/-- Claim C4: for a non-empty keyword, an article of the database whose title
or content contains the keyword as a substring is counted in `search_articles`'
total — which is exactly the number of matching articles — and appears on some
page (for any fixed positive page size); an article containing the keyword in
neither field is counted in no total and appears in no returned page, whatever
page and page size are requested. -/
theorem c4_search_membership (db : DB) (k : String) (a : Article) (ps : ℤ)
    (ha : a ∈ db.articles) (hk : k ≠ "") (hps : 0 < ps) :
    ((likeContains a.article_title k || likeContains a.article_content k) = true →
        a ∈ db.articles.filter (searchMatch k) ∧
        (∀ r, search_articles db k 1 ps = Except.ok r →
            r.total = ((db.articles.filter (searchMatch k)).length : ℤ)) ∧
        (∃ p : ℤ, 1 ≤ p ∧
            ∃ r, search_articles db k p ps = Except.ok r ∧ a ∈ r.articles)) ∧
    ((likeContains a.article_title k || likeContains a.article_content k) = false →
        a ∉ db.articles.filter (searchMatch k) ∧
        (∀ p ps2 : ℤ, ∀ r, search_articles db k p ps2 = Except.ok r →
            a ∉ r.articles)) := by
  obtain ⟨m, hm, rfl⟩ : ∃ m : ℕ, 0 < m ∧ ps = (m : ℤ) :=
    ⟨ps.toNat, by omega, (Int.toNat_of_nonneg hps.le).symm⟩
  have hm' : (m : ℤ) ≠ 0 := by exact_mod_cast hm.ne'
  constructor
  · intro hmatch
    have hf : a ∈ db.articles.filter (searchMatch k) :=
      List.mem_filter.mpr ⟨ha, hmatch⟩
    refine ⟨hf, ?_, ?_⟩
    · intro r hr
      rw [search_articles_eq_ok db k 1 _ hm'] at hr
      injection hr with hr
      subst hr
      show ((searchQuery db k).length : ℤ) = _
      rw [searchQuery, length_orderByCreatedTimeDesc]
    · have hq : a ∈ searchQuery db k := (mem_orderByCreatedTimeDesc _ _).mpr hf
      rw [← flatten_all_chunks (searchQuery db k) m hm] at hq
      obtain ⟨chunk, hchunk, hachunk⟩ := List.mem_flatten.mp hq
      obtain ⟨i, hiN, rfl⟩ := List.mem_map.mp hchunk
      refine ⟨(i : ℤ) + 1, by omega, ?_⟩
      refine ⟨_, search_articles_eq_ok db k ((i : ℤ) + 1) _ hm', ?_⟩
      show a ∈ offsetLimit (searchQuery db k) (((i : ℤ) + 1 - 1) * (m : ℤ)) (m : ℤ)
      have hoff : (((i : ℤ) + 1 - 1) * (m : ℤ)).toNat = i * m := by
        rw [add_sub_cancel_right, ← Nat.cast_mul, Int.toNat_natCast]
      rw [offsetLimit, hoff, Int.toNat_natCast]
      exact hachunk
  · intro hmatch
    have hnf : a ∉ db.articles.filter (searchMatch k) := by
      intro hf
      have := (List.mem_filter.mp hf).2
      rw [searchMatch, hmatch] at this
      cases this
    refine ⟨hnf, ?_⟩
    intro p ps2 r hr hmem
    rcases eq_or_ne ps2 0 with h | h
    · subst h; rw [search_articles_zero_ps] at hr; cases hr
    · rw [search_articles_eq_ok db k p ps2 h] at hr
      injection hr with hr
      subst hr
      have h1 : a ∈ searchQuery db k := offsetLimit_subset _ _ _ hmem
      rw [searchQuery] at h1
      exact hnf ((mem_orderByCreatedTimeDesc _ _).mp h1)

/-- Witness for C4 at the one-article database, keyword "t", page size 20. -/
theorem c4_search_membership_witness :
    articleA ∈ dbOne.articles ∧ ("t" : String) ≠ "" ∧ (0 : ℤ) < 20 ∧
    (articleA ∈ dbOne.articles.filter (searchMatch "t") ∧
     (∀ r, search_articles dbOne "t" 1 20 = Except.ok r →
        r.total = ((dbOne.articles.filter (searchMatch "t")).length : ℤ)) ∧
     (∃ p : ℤ, 1 ≤ p ∧
        ∃ r, search_articles dbOne "t" p 20 = Except.ok r ∧ articleA ∈ r.articles)) :=
  ⟨by decide, by decide, by decide,
    (c4_search_membership dbOne "t" articleA 20 (by decide) (by decide) (by decide)).1
      (by decide)⟩

/-- Claim C6: with a fixed positive page size, the page returned for page
number p is the slice of the full creation-time-descending-ordered match list
starting at offset (p − 1)·page_size, the reported total_pages is the number
of those slices, and concatenating the slices of pages 1..total_pages (chunk i
below is the slice of page i+1, at offset i·page_size) reconstructs the single
unpaginated ordered query result with no article duplicated or omitted — for
both `get_articles_with_pagination` and `search_articles`. -/
theorem c6_pages_partition_query (db : DB) (ps : ℤ) (aid : Option ℤ) (k : String)
    (hps : 0 < ps) :
    (∀ p : ℤ, ∀ r, get_articles_with_pagination db p ps aid = Except.ok r →
        r.articles = ((articlesQuery db aid).drop ((p - 1) * ps).toNat).take ps.toNat ∧
        r.total_pages =
          ((((articlesQuery db aid).length + ps.toNat - 1) / ps.toNat : ℕ) : ℤ)) ∧
    ((List.range (((articlesQuery db aid).length + ps.toNat - 1) / ps.toNat)).map
        (fun i => ((articlesQuery db aid).drop (i * ps.toNat)).take ps.toNat)).flatten =
      articlesQuery db aid ∧
    (∀ p : ℤ, ∀ r, search_articles db k p ps = Except.ok r →
        r.articles = ((searchQuery db k).drop ((p - 1) * ps).toNat).take ps.toNat ∧
        r.total_pages =
          ((((searchQuery db k).length + ps.toNat - 1) / ps.toNat : ℕ) : ℤ)) ∧
    ((List.range (((searchQuery db k).length + ps.toNat - 1) / ps.toNat)).map
        (fun i => ((searchQuery db k).drop (i * ps.toNat)).take ps.toNat)).flatten =
      searchQuery db k := by
  have hps' : ps ≠ 0 := by omega
  have hmpos : 0 < ps.toNat := by omega
  refine ⟨?_, flatten_all_chunks _ _ hmpos, ?_, flatten_all_chunks _ _ hmpos⟩
  · intro p r hr
    rw [get_articles_eq_ok db p ps aid hps'] at hr
    injection hr with hr
    subst hr
    refine ⟨rfl, ?_⟩
    show Int.fdiv _ _ = _
    rw [fdiv_total_pages_eq_ceilDiv _ ps hps, Nat.ceilDiv_eq_add_pred_div]
  · intro p r hr
    rw [search_articles_eq_ok db k p ps hps'] at hr
    injection hr with hr
    subst hr
    refine ⟨rfl, ?_⟩
    show Int.fdiv _ _ = _
    rw [fdiv_total_pages_eq_ceilDiv _ ps hps, Nat.ceilDiv_eq_add_pred_div]

/-- Witness for C6 at the one-article database with page size 20. -/
theorem c6_pages_partition_query_witness :
    (0 : ℤ) < 20 ∧
    ((List.range (((articlesQuery dbOne none).length + (20 : ℤ).toNat - 1) /
          (20 : ℤ).toNat)).map
        (fun i => ((articlesQuery dbOne none).drop (i * (20 : ℤ).toNat)).take
          (20 : ℤ).toNat)).flatten = articlesQuery dbOne none :=
  ⟨by decide, (c6_pages_partition_query dbOne 20 none "t" (by decide)).2.1⟩

/-- Claim C7 evaluation (code bug): on a fresh database, `create_tables` creates
the four tables, but `Base.metadata.create_all` runs BEFORE `create_indexes`
has attached any index declaration, so the first invocation creates no
secondary index; every later invocation skips the already-existing tables
together with their (by then attached) index declarations, so the database
never receives any of the ten declared indexes, although `create_indexes` does
register all ten of them in the metadata. -/
theorem c7_create_tables_never_creates_indexes :
    (create_tables initialMetaData freshDatabase).2.dbTables =
      [TableName.users, TableName.articles, TableName.comments, TableName.labels] ∧
    (create_tables initialMetaData freshDatabase).2.dbIndexes = [] ∧
    (create_tables (create_tables initialMetaData freshDatabase).1
        (create_tables initialMetaData freshDatabase).2).2 =
      (create_tables initialMetaData freshDatabase).2 ∧
    (create_indexes initialMetaData).indexes = declaredIndexes ∧
    declaredIndexes.length = 10 := by
  refine ⟨by decide, by decide, by decide, by decide, by decide⟩

/-- Claim C9 counterexample: the networked kinds do not all produce
`<kind>://…` — the kind "mysql" gets the driver-qualified prefix
"mysql+pymysql" — and a configured port of "0", although a valid integer, is
falsy in Python, so its port segment is silently omitted. -/
theorem c9_url_counterexample :
    database_url "mysql" "u" "pw" "adb" "h" (some "3306") =
      "mysql+pymysql://u:pw@h:3306/adb" ∧
    database_url "mysql" "u" "pw" "adb" "h" (some "3306") ≠
      "mysql://u:pw@h:3306/adb" ∧
    database_url "postgresql" "u" "pw" "adb" "h" (some "0") =
      "postgresql://u:pw@h/adb" ∧
    database_url "postgresql" "u" "pw" "adb" "h" (some "0") ≠
      "postgresql://u:pw@h:0/adb" := by
  refine ⟨by decide, by decide, by decide, by decide⟩

/-- Claim C9 (amended): the sqlite kind yields a local single-file database
named after the schema; the mysql kind yields the driver-qualified prefix
"mysql+pymysql"; any other kind is used verbatim as the URL scheme; in the
networked cases the port segment is present exactly when the configured port
string parses as a NONZERO integer, and the absent, invalid, "none" and zero
port configurations all degrade silently to the no-port form rather than
raising. -/
theorem c9_database_url_shape (ty u pw tbl host : String) (port : Option String) :
    (pyLower ty = "sqlite" →
        database_url ty u pw tbl host port = "sqlite:///" ++ tbl ++ ".db") ∧
    (pyLower ty ≠ "sqlite" → pyLower ty = "mysql" →
        (∀ p : ℤ, parse_data_port port = some p → p ≠ 0 →
            database_url ty u pw tbl host port =
              "mysql+pymysql://" ++ u ++ ":" ++ pw ++ "@" ++ host ++ ":" ++
                toString p ++ "/" ++ tbl) ∧
        ((parse_data_port port = none ∨ parse_data_port port = some 0) →
            database_url ty u pw tbl host port =
              "mysql+pymysql://" ++ u ++ ":" ++ pw ++ "@" ++ host ++ "/" ++ tbl)) ∧
    (pyLower ty ≠ "sqlite" → pyLower ty ≠ "mysql" →
        (∀ p : ℤ, parse_data_port port = some p → p ≠ 0 →
            database_url ty u pw tbl host port =
              ty ++ "://" ++ u ++ ":" ++ pw ++ "@" ++ host ++ ":" ++
                toString p ++ "/" ++ tbl) ∧
        ((parse_data_port port = none ∨ parse_data_port port = some 0) →
            database_url ty u pw tbl host port =
              ty ++ "://" ++ u ++ ":" ++ pw ++ "@" ++ host ++ "/" ++ tbl)) := by
  refine ⟨?_, ?_, ?_⟩
  · intro h
    rw [database_url, if_pos h]
  · intro h1 h2
    constructor
    · intro p hp hp0
      rw [database_url, if_neg h1, if_pos h2, hp]
      rw [if_pos (by simpa [pyTruthyOptInt] using hp0)]
      rfl
    · intro hnone
      rw [database_url, if_neg h1, if_pos h2]
      rcases hnone with hn | hn
      · rw [hn, if_neg (by simp [pyTruthyOptInt])]
      · rw [hn, if_neg (by simp [pyTruthyOptInt])]
  · intro h1 h2
    constructor
    · intro p hp hp0
      rw [database_url, if_neg h1, if_neg h2, hp]
      rw [if_pos (by simpa [pyTruthyOptInt] using hp0)]
      rfl
    · intro hnone
      rw [database_url, if_neg h1, if_neg h2]
      rcases hnone with hn | hn
      · rw [hn, if_neg (by simp [pyTruthyOptInt])]
      · rw [hn, if_neg (by simp [pyTruthyOptInt])]

/-- Witness for C9 (amended) at a networked kind with a valid nonzero port. -/
theorem c9_database_url_shape_witness :
    (pyLower "postgresql" ≠ "sqlite") ∧ (pyLower "postgresql" ≠ "mysql") ∧
    parse_data_port (some "5432") = some 5432 ∧ ((5432 : ℤ) ≠ 0) ∧
    database_url "postgresql" "u" "pw" "adb" "h" (some "5432") =
      "postgresql" ++ "://" ++ "u" ++ ":" ++ "pw" ++ "@" ++ "h" ++ ":" ++
        toString (5432 : ℤ) ++ "/" ++ "adb" :=
  ⟨by decide, by decide, by decide, by decide,
    ((c9_database_url_shape "postgresql" "u" "pw" "adb" "h" (some "5432")).2.2
        (by decide) (by decide)).1 5432 (by decide) (by decide)⟩

end ArticleSystem
